import Mathlib

/-!
Verification of the desert library (python-desert/desert): a shallow Lean
embedding of the tagged-union registry and codec machinery in
`src/desert/_fields.py` and of the schema/field-resolution machinery in
`src/desert/_make.py`, together with theorems settling the specification
claims about them.

Conventions of the embedding:

* Python `dict`s with string keys are modelled as association lists
  (`List (String × α)`) in insertion order, with the Python operations
  (lookup, `d[k] = v`, `setdefault`, `pop`, `**`-merge) defined to match
  CPython semantics on dictionaries whose keys are unique.
* Fallible Python code returns `Except`; each raised exception appears as
  an explicit error constructor.
* Third-party runtime type checks (`typeguard.check_type`, `isinstance`,
  `typing_inspect.get_origin` comparison) are abstracted as boolean
  oracles, exactly as the spec's design notes prescribe for runtime
  structural type matching.
-/

namespace Desert

/-- A minimal universe of Python runtime objects, sufficient for the wire
values handled by the tagged-union codecs: strings, integers, `None`,
string-keyed mappings, and lists. -/
inductive PyObj where
  | str (s : String)
  | int (n : Int)
  | none
  | dict (entries : List (String × PyObj))
  | list (xs : List PyObj)

deriving instance DecidableEq for Except

/-- A Python `dict` with string keys, in insertion order. -/
abbrev PyDict (α : Type) := List (String × α)

/-- Membership test for a key, `k in d`. -/
def dictContainsKey (d : PyDict α) (k : String) : Bool :=
  d.any (fun p => p.1 == k)

/-- Python `d[k]` read access (`None` result models a `KeyError`). -/
def dictLookup (d : PyDict α) (k : String) : Option α :=
  (d.find? (fun p => p.1 == k)).map (fun p => p.2)

/-- Python `d[k] = v`: update the value in place when the key is present
(keeping its position), append otherwise. -/
def dictSet (d : PyDict α) (k : String) (v : α) : PyDict α :=
  if dictContainsKey d k then
    d.map (fun p => if p.1 == k then (k, v) else p)
  else
    d ++ [(k, v)]

/-- Python `d.setdefault(k, v)`. -/
def dictSetdefault (d : PyDict α) (k : String) (v : α) : PyDict α :=
  if dictContainsKey d k then d else d ++ [(k, v)]

/-- Python `{**base, **new}`-style merge: insert the entries of `new` into
`base` one by one, as the `**` unpacking in a dict display does. -/
def dictExtend (d : PyDict α) (new : PyDict α) : PyDict α :=
  new.foldl (fun acc p => dictSet acc p.1 p.2) d

/-- Python `d.pop(k)`: the popped value together with the dictionary after
the removal; `none` models a `KeyError`.  On a dictionary with unique keys
removing every entry with key `k` removes exactly the popped entry. -/
def dictPop (d : PyDict α) (k : String) : Option (α × PyDict α) :=
  match dictLookup d k with
  | Option.none => Option.none
  | Option.some v => Option.some (v, d.filter (fun p => p.1 != k))

section Registry

variable {Hint Val Fld : Type}

/-- The `(hint, tag, field)` triple of `desert._fields.HintTagField`.  The
hint and the Marshmallow field are opaque to the registry logic, so they
are type parameters of the embedding. -/
structure HintTagField (Hint Fld : Type) where
  hint : Hint
  tag : String
  field : Fld
deriving DecidableEq, Repr

/-- Modelled from the spec: the duplicate-tag error.  `_fields.py` line
118 raises `desert.exceptions.TagAlreadyRegistered(tag=tag)` and the test
suite expects that exception class, but the `exceptions.py` present under
`src/` does not define it; its shape here follows the spec's description
of a fatal duplicate-tag registration error naming the offending tag. -/
inductive RegisterError where
  | tagAlreadyRegistered (tag : String)
deriving DecidableEq, Repr

/-- Errors raised by `TypeAndHintFieldRegistry.from_object`:
`NoMatchingHintFound` and `MultipleMatchingHintsFound` from
`desert/exceptions.py` (both report the hints considered or tied and the
offending value), and the built-in `ValueError` that Python's `max`
raises on an empty sequence (reached when the registry has no entries). -/
inductive FromObjectError (Hint Val : Type) where
  | noMatchingHintFound (hints : List Hint) (value : Val)
  | multipleMatchingHintsFound (hints : List Hint) (value : Val)
  | valueErrorFromEmptyMax
deriving DecidableEq, Repr

/-- The built-in `KeyError` raised by `from_tag` on an unknown tag. -/
inductive FromTagError where
  | keyError (tag : String)
deriving DecidableEq, Repr

/-- The boolean oracles through which `from_object` consults the Python
runtime type system, one per check in the source:

* `duck h v` — `typeguard.check_type(argname="", value=v, expected_type=h)`
  returns without raising `TypeError` (structural / duck-typed check);
* `nominal h v` — `isinstance(v, h)` returns `True` (when the hint is not
  a class `isinstance` raises `TypeError`, which the source swallows, so
  that case is `false` here as well);
* `originEq h v` — `type(v) == typing_inspect.get_origin(h)`. -/
structure Checks (Hint Val : Type) where
  duck : Hint → Val → Bool
  nominal : Hint → Val → Bool
  originEq : Hint → Val → Bool

/-- `desert._fields.TypeAndHintFieldRegistry`: a mapping from tags to
`HintTagField` triples, in registration order. -/
structure TypeAndHintFieldRegistry (Hint Fld : Type) where
  by_tag : PyDict (HintTagField Hint Fld)
deriving DecidableEq, Repr

namespace TypeAndHintFieldRegistry

/-- The values of `self.by_tag`, in insertion order. -/
def entries (r : TypeAndHintFieldRegistry Hint Fld) : List (HintTagField Hint Fld) :=
  r.by_tag.map (fun p => p.2)

/-- Well-formedness maintained by `register`: the keys of `by_tag` are
distinct (they are the keys of a Python dict) and each entry's `tag` field
equals its key (because `register` stores `HintTagField(hint, tag, field)`
under `tag`). -/
def WF (r : TypeAndHintFieldRegistry Hint Fld) : Prop :=
  (r.by_tag.map (fun p => p.1)).Nodup ∧ ∀ p ∈ r.by_tag, p.2.tag = p.1

instance (r : TypeAndHintFieldRegistry Hint Fld) [DecidableEq Hint] [DecidableEq Fld] :
    Decidable r.WF := by
  unfold WF
  infer_instance

/-- `TypeAndHintFieldRegistry.register` (`_fields.py` lines 111-122),
state-passing: the returned registry is the updated state and the second
component is the raised exception, if any.  The duplicate check happens
before any mutation. -/
def register (r : TypeAndHintFieldRegistry Hint Fld) (hint : Hint) (tag : String)
    (field : Fld) :
    TypeAndHintFieldRegistry Hint Fld × Option RegisterError :=
  if dictContainsKey r.by_tag tag then
    (r, Option.some (RegisterError.tagAlreadyRegistered tag))
  else
    (⟨dictSet r.by_tag tag ⟨hint, tag, field⟩⟩, Option.none)

/-- The per-entry score computed by the loop body of `from_object`
(`_fields.py` lines 128-156): +2 for the structural `typeguard` check, +3
for the nominal `isinstance` check, and, only when the score so far is
positive, +1 when the value's runtime type equals the hint's generic
origin. -/
def score (c : Checks Hint Val) (v : Val) (e : HintTagField Hint Fld) : Nat :=
  let s := (if c.duck e.hint v then 2 else 0) + (if c.nominal e.hint v then 3 else 0)
  if 0 < s then (if c.originEq e.hint v then s + 1 else s) else s

/-- Python's `max` over a list (in iteration order); `none` models the
`ValueError` raised on an empty sequence. -/
def pyMax : List Nat → Option Nat
  | [] => Option.none
  | x :: xs =>
    Option.some (match pyMax xs with
      | Option.none => x
      | Option.some m => max x m)

/-- `TypeAndHintFieldRegistry.from_object` (`_fields.py` lines 124-174):
score every registered entry, take the highest score, fail with
`NoMatchingHintFound` when it is zero, fail with
`MultipleMatchingHintsFound` when several entries attain it, and return
the single top-scoring entry otherwise.  On an empty registry `max` of an
empty sequence raises `ValueError`. -/
def from_object (c : Checks Hint Val) (r : TypeAndHintFieldRegistry Hint Fld)
    (v : Val) : Except (FromObjectError Hint Val) (HintTagField Hint Fld) :=
  match pyMax (r.entries.map (fun e => score c v e)) with
  | Option.none => Except.error FromObjectError.valueErrorFromEmptyMax
  | Option.some high =>
    if high = 0 then
      Except.error (FromObjectError.noMatchingHintFound (r.entries.map (fun e => e.hint)) v)
    else
      match r.entries.filter (fun e => score c v e == high) with
      | [e] => Except.ok e
      | potential =>
        Except.error
          (FromObjectError.multipleMatchingHintsFound (potential.map (fun e => e.hint)) v)

/-- `TypeAndHintFieldRegistry.from_tag` (`_fields.py` lines 176-177):
direct dictionary lookup; an absent tag is a `KeyError`. -/
def from_tag (r : TypeAndHintFieldRegistry Hint Fld) (tag : String) :
    Except FromTagError (HintTagField Hint Fld) :=
  match dictLookup r.by_tag tag with
  | Option.some e => Except.ok e
  | Option.none => Except.error (FromTagError.keyError tag)

end TypeAndHintFieldRegistry

end Registry

section TagConventions

/-- The ephemeral `(tag, value)` pair `desert._fields.TaggedValue`.  Its
`tag` attribute is annotated `str` in the source but attrs does not
enforce annotations at runtime, so it holds an arbitrary object here. -/
structure TaggedValue where
  tag : PyObj
  value : PyObj

/-- Errors raised by the tag-placement helpers of `_fields.py`:
`ValueError` from unpacking `[[tag, v]] = item.items()` with the wrong
entry count, `desert.exceptions.TypeKeyCollision`, the built-in
`KeyError` from `item[k]` / `item.pop(k)`, and the bare `raise
Exception()` for leftover keys in the adjacently tagged form. -/
inductive TagError where
  | valueErrorUnpack
  | typeKeyCollision (type_key : String) (value : PyDict PyObj)
  | keyError (k : String)
  | exceptionLeftoverKeys

/-- `_fields.py` lines 282-287: externally tagged data holds exactly one
entry, whose key is the tag and whose value is the payload. -/
def from_externally_tagged (item : PyDict PyObj) : Except TagError TaggedValue :=
  match item with
  | [(tag, v)] => Except.ok ⟨PyObj.str tag, v⟩
  | _ => Except.error TagError.valueErrorUnpack

/-- `_fields.py` lines 290-293: `{tag: value}`. -/
def to_externally_tagged (tag : String) (value : PyObj) : PyDict PyObj :=
  [(tag, value)]

/-- `_fields.py` lines 327-336: the tag is read from the type key and the
payload is the mapping with the type key removed (a fresh dict built by a
comprehension; the input is not mutated). -/
def from_internally_tagged (item : PyDict PyObj) (type_key : String) :
    Except TagError TaggedValue :=
  match dictLookup item type_key with
  | Option.none => Except.error (TagError.keyError type_key)
  | Option.some ts =>
    Except.ok ⟨ts, PyObj.dict (item.filter (fun p => p.1 != type_key))⟩

/-- `_fields.py` lines 339-349: `{type_key: tag, **value}`, after raising
`TypeKeyCollision` when the payload already contains the type key. -/
def to_internally_tagged (tag : String) (value : PyDict PyObj) (type_key : String) :
    Except TagError (PyDict PyObj) :=
  if dictContainsKey value type_key then
    Except.error (TagError.typeKeyCollision type_key value)
  else
    Except.ok (dictExtend [(type_key, PyObj.str tag)] value)

/-- `_fields.py` lines 384-395: `item.pop(type_key)`, `item.pop(value_key)`,
then a bare `raise Exception()` when anything is left.  The two `pop`
calls mutate the input dictionary, so the embedding passes the dictionary
state through: the second component of a successful result is the state
of the input mapping after the call. -/
def from_adjacently_tagged (item : PyDict PyObj) (type_key value_key : String) :
    Except TagError (TaggedValue × PyDict PyObj) :=
  match dictPop item type_key with
  | Option.none => Except.error (TagError.keyError type_key)
  | Option.some (tag, item1) =>
    match dictPop item1 value_key with
    | Option.none => Except.error (TagError.keyError value_key)
    | Option.some (v, item2) =>
      if 0 < item2.length then Except.error TagError.exceptionLeftoverKeys
      else Except.ok (⟨tag, v⟩, item2)

/-- `_fields.py` lines 398-403: `{type_key: tag, value_key: value}`. -/
def to_adjacently_tagged (tag : String) (value : PyObj) (type_key value_key : String) :
    PyDict PyObj :=
  dictSet (dictSet [] type_key (PyObj.str tag)) value_key value

end TagConventions

section Make

/-- The universe of type declarations the field resolver of `_make.py` is
exercised on: the exact-type keys of `_native_to_marshmallow`, the `Any`
marker, `NoneType`, the `Ellipsis` marker (as it appears inside
`Tuple[X, ...]`), parametrized generics, unparameterized `list`/`dict`,
enumerations, attrs/dataclass classes, and other plain classes.
`t.Optional[X]` is `t.Union[X, None]`, hence `unionOf [X, noneType]`. -/
inductive PyType where
  | int
  | float
  | str
  | bool
  | datetime
  | time
  | timedelta
  | date
  | decimal
  | uuid
  | any
  | noneType
  | ellipsis
  | listOf (a : PyType)
  | tupleOf (args : List PyType)
  | dictOf (k v : PyType)
  | unionOf (args : List PyType)
  | enumType (name : String)
  | dataklass (name : String)
  | plainClass (name : String)
  | bareList
  | bareDict

mutual
/-- A Marshmallow field as constructed by `field_for_schema`, carrying the
keyword mapping (`**metadata`) it was constructed with.  Nested schema
synthesis for `dataklass` types is recorded by name rather than expanded:
no claim depends on the inner schema of a nested class. -/
inductive MField where
  | integer (kw : List (String × MetaVal))
  | floating (kw : List (String × MetaVal))
  | stringF (kw : List (String × MetaVal))
  | booleanF (kw : List (String × MetaVal))
  | dateTimeF (kw : List (String × MetaVal))
  | timeF (kw : List (String × MetaVal))
  | timeDeltaF (kw : List (String × MetaVal))
  | dateF (kw : List (String × MetaVal))
  | decimalF (kw : List (String × MetaVal))
  | uuidF (kw : List (String × MetaVal))
  | raw (kw : List (String × MetaVal))
  | listF (elem : MField) (kw : List (String × MetaVal))
  | tupleF (elems : List MField) (kw : List (String × MetaVal))
  | dictF (keyF valF : MField) (kw : List (String × MetaVal))
  | unionF (subs : List MField) (kw : List (String × MetaVal))
  | enumF (name : String) (kw : List (String × MetaVal))
  | nested (cls : String) (kw : List (String × MetaVal))

/-- A Python object as it appears inside the metadata mappings handled by
`field_for_schema`: a generic runtime value, the `marshmallow.missing`
sentinel, a boolean, a pre-built Marshmallow field (the
`"marshmallow_field"` escape hatch), or a nested mapping (the `"desert"`
sub-mapping). -/
inductive MetaVal where
  | pyObj (o : PyObj)
  | missing
  | boolV (b : Bool)
  | mfield (f : MField)
  | mmap (entries : List (String × MetaVal))
end

/-- The metadata mappings of `field_for_schema`. -/
abbrev Meta := PyDict MetaVal

/-- Python truthiness (`bool(x)`) for the objects of the model;
`marshmallow.missing` defines `__bool__` to return `False`. -/
def MetaVal.truthy : MetaVal → Bool
  | MetaVal.pyObj PyObj.none => false
  | MetaVal.pyObj (PyObj.int n) => n != 0
  | MetaVal.pyObj (PyObj.str s) => s != ""
  | MetaVal.pyObj (PyObj.dict d) => d.length != 0
  | MetaVal.pyObj (PyObj.list l) => l.length != 0
  | MetaVal.missing => false
  | MetaVal.boolV b => b
  | MetaVal.mfield _ => true
  | MetaVal.mmap m => m.length != 0

/-- Errors raised while resolving a field or synthesizing a schema in the
`_make.py` under `src/`: `desert.exceptions.NotAnAttrsClassOrDataclass`
(note: `desert.exceptions.UnknownType` is defined but never raised there),
the built-in `AttributeError` when the `"desert"` metadata entry is not a
mapping (its `.setdefault` is called unconditionally), the built-in
`TypeError` when a truthy `"marshmallow_field"` entry is not a field
(Marshmallow fails when binding it to a schema), and the built-in
`StopIteration` from `next()` when a union contains only `NoneType`. -/
inductive MakeError where
  | notAnAttrsClassOrDataclass (typ : PyType)
  | attributeErrorNonMapping
  | typeErrorNonFieldPredefined
  | stopIteration

/-- The handling of the object found (or not) under the `"desert"` key:
absent means `{}`; a mapping is used as is; anything else has no
`.setdefault` and the unconditional `setdefault` call that follows raises
`AttributeError`. -/
def desertEntryToMeta (entry : Option MetaVal) : Except MakeError Meta :=
  match entry with
  | Option.none => Except.ok []
  | Option.some (MetaVal.mmap sub) => Except.ok sub
  | Option.some _ => Except.error MakeError.attributeErrorNonMapping

/-- Lines 261-264 of `_make.py`: a `None` metadata argument becomes `{}`,
otherwise the resolver works on `dict(metadata).get("desert", {})` alone. -/
def extractDesert (metadata : Option Meta) : Except MakeError Meta :=
  match metadata with
  | Option.none => Except.ok []
  | Option.some m => desertEntryToMeta (dictLookup m "desert")

/-- Lines 266-273 of `_make.py`: with a real default, record it via
`setdefault` as `default` and (unless the field is marked required, by
Python truthiness of `metadata.get("required")`) as `missing`; with the
missing sentinel, `setdefault` `required` to `True`. -/
def applyDefault (md : Meta) (default : MetaVal) : Meta :=
  match default with
  | MetaVal.missing => dictSetdefault md "required" (MetaVal.boolV true)
  | d =>
    let md1 := dictSetdefault md "default" d
    if (dictLookup md1 "required").elim false MetaVal.truthy then md1
    else dictSetdefault md1 "missing" d

/-- The membership test `t is not NoneType` of the generator expression in
the optional branch. -/
def PyType.isNoneType : PyType → Bool
  | PyType.noneType => true
  | _ => false

mutual
/-- `field_for_schema` (`_make.py` lines 225-337), translated branch by
branch: metadata normalization to the `"desert"` sub-mapping, default and
requiredness bookkeeping, the `"marshmallow_field"` escape hatch, the
`_native_to_marshmallow` exact-type table, origin-dispatch for `List`,
`Tuple`, `Dict`, `Optional` and `Union` generics, enumerations, and the
nested-class fallback that calls `class_schema` and therefore raises
`NotAnAttrsClassOrDataclass` for anything that is neither an attrs class
nor a dataclass.  The `NewType` and string forward-reference branches are
not populated because the type universe contains neither.  Python's
`typing` collapses `Union[X]` to `X`, so one-element unions do not arise,
but the translation keeps the source's handling of whatever it is given. -/
def field_for_schema (typ : PyType) (default : MetaVal) (metadata : Option Meta) :
    Except MakeError MField :=
  match extractDesert metadata with
  | Except.error e => Except.error e
  | Except.ok md0 =>
    let md := applyDefault md0 default
    match (dictLookup md "marshmallow_field").filter MetaVal.truthy with
    | Option.some (MetaVal.mfield f) => Except.ok f
    | Option.some _ => Except.error MakeError.typeErrorNonFieldPredefined
    | Option.none =>
      match typ with
      | PyType.int => Except.ok (MField.integer md)
      | PyType.float => Except.ok (MField.floating md)
      | PyType.str => Except.ok (MField.stringF md)
      | PyType.bool => Except.ok (MField.booleanF md)
      | PyType.datetime => Except.ok (MField.dateTimeF md)
      | PyType.time => Except.ok (MField.timeF md)
      | PyType.timedelta => Except.ok (MField.timeDeltaF md)
      | PyType.date => Except.ok (MField.dateF md)
      | PyType.decimal => Except.ok (MField.decimalF md)
      | PyType.uuid => Except.ok (MField.uuidF md)
      | PyType.any => Except.ok (MField.raw md)
      | PyType.listOf a =>
        match field_for_schema a MetaVal.missing Option.none with
        | Except.error e => Except.error e
        | Except.ok elemF => Except.ok (MField.listF elemF md)
      | PyType.tupleOf args =>
        match fieldsForTypes args Option.none with
        | Except.error e => Except.error e
        | Except.ok elems => Except.ok (MField.tupleF elems md)
      | PyType.dictOf k v =>
        match field_for_schema k MetaVal.missing Option.none with
        | Except.error e => Except.error e
        | Except.ok kf =>
          match field_for_schema v MetaVal.missing Option.none with
          | Except.error e => Except.error e
          | Except.ok vf => Except.ok (MField.dictF kf vf md)
      | PyType.unionOf args =>
        if args.any PyType.isNoneType then resolveOptional args md
        else
          match fieldsForTypes args (Option.some [("desert", MetaVal.mmap md)]) with
          | Except.error e => Except.error e
          | Except.ok subs => Except.ok (MField.unionF subs md)
      | PyType.enumType name => Except.ok (MField.enumF name md)
      | PyType.dataklass name => Except.ok (MField.nested name md)
      | other => Except.error (MakeError.notAnAttrsClassOrDataclass other)

/-- Lines 300-307 of `_make.py`, the optional branch, with the
`next(t for t in arguments if t is not NoneType)` search fused with the
single recursive call it feeds: on the first non-`NoneType` alternative,
force `default` and `missing` to `None` and `required` to `False` and
recurse; `StopIteration` when no alternative exists. -/
def resolveOptional (args : List PyType) (md : Meta) : Except MakeError MField :=
  match args with
  | [] => Except.error MakeError.stopIteration
  | a :: rest =>
    if PyType.isNoneType a then resolveOptional rest md
    else
      let md1 := dictSet md "default"
        ((dictLookup md "default").getD (MetaVal.pyObj PyObj.none))
      let md2 := dictSet md1 "missing"
        ((dictLookup md1 "missing").getD (MetaVal.pyObj PyObj.none))
      let md3 := dictSet md2 "required" (MetaVal.boolV false)
      field_for_schema a MetaVal.missing
        (Option.some [("desert", MetaVal.mmap md3)])

/-- The element-wise resolution `field_for_schema(arg)` used by the tuple
branch (bare recursion, metadata `None`) and the union branch (metadata
`{"desert": metadata}`), left to right, first failure propagating. -/
def fieldsForTypes (typs : List PyType) (metadata : Option Meta) :
    Except MakeError (List MField) :=
  match typs with
  | [] => Except.ok []
  | t :: ts =>
    match field_for_schema t MetaVal.missing metadata with
    | Except.error e => Except.error e
    | Except.ok f =>
      match fieldsForTypes ts metadata with
      | Except.error e => Except.error e
      | Except.ok fs => Except.ok (f :: fs)
end

end Make

section LoadModel

/-- The keyword mapping a resolved Marshmallow field was constructed
with. -/
def MField.kwargs : MField → Meta
  | MField.integer kw => kw
  | MField.floating kw => kw
  | MField.stringF kw => kw
  | MField.booleanF kw => kw
  | MField.dateTimeF kw => kw
  | MField.timeF kw => kw
  | MField.timeDeltaF kw => kw
  | MField.dateF kw => kw
  | MField.decimalF kw => kw
  | MField.uuidF kw => kw
  | MField.raw kw => kw
  | MField.listF _ kw => kw
  | MField.tupleF _ kw => kw
  | MField.dictF _ _ kw => kw
  | MField.unionF _ kw => kw
  | MField.enumF _ kw => kw
  | MField.nested _ kw => kw

/-- Marshmallow's `required` flag: the `required` keyword by Python
truthiness, `False` when absent. -/
def MField.isRequired (f : MField) : Bool :=
  (dictLookup f.kwargs "required").elim false MetaVal.truthy

/-- Marshmallow's load-time default: the `missing` keyword, the missing
sentinel when absent. -/
def MField.loadDefault (f : MField) : MetaVal :=
  (dictLookup f.kwargs "missing").getD MetaVal.missing

/-- Marshmallow's dump-time default: the `default` keyword, the missing
sentinel when absent. -/
def MField.dumpDefault (f : MField) : MetaVal :=
  (dictLookup f.kwargs "default").getD MetaVal.missing

/-- Marshmallow's `allow_none`: the explicit keyword when given, otherwise
`True` exactly when the load-time default is `None`. -/
def MField.allowNone (f : MField) : Bool :=
  match dictLookup f.kwargs "allow_none" with
  | Option.some v => v.truthy
  | Option.none =>
    match f.loadDefault with
    | MetaVal.pyObj PyObj.none => true
    | _ => false

/-- Validation failures surfaced by loading, plus the `TypeError` the
`post_load` hook's `clazz(**data)` call raises when a constructor
argument is absent from the loaded data. -/
inductive LoadError where
  | validationRequired (fieldName : String)
  | validationNull (fieldName : String)
  | validationInvalid (fieldName : String)
  | typeErrorMissingArgument (fieldName : String)
deriving DecidableEq, Repr

/-- Modelled from the spec: the external leaf-codec collaborator's
`deserialize` discipline (spec section 6) — it honors the missing
sentinel, distinguishing an absent wire value (fall back to the load-time
default, or fail when the field is required) from an explicit null
(accepted exactly when `allow_none` holds).  `Option.none` as input is
the missing sentinel; `Option.none` as output means the result is the
missing sentinel and the key is left out of the loaded data.  Of the leaf
decoders themselves only the integer codec's pass-through of integer wire
values is populated; no claim exercises another leaf decoder on a present
non-null value. -/
def deserializeSlot (fname : String) (f : MField) (w : Option PyObj) :
    Except LoadError (Option PyObj) :=
  match w with
  | Option.none =>
    if f.isRequired then Except.error (LoadError.validationRequired fname)
    else
      match f.loadDefault with
      | MetaVal.missing => Except.ok Option.none
      | MetaVal.pyObj o => Except.ok (Option.some o)
      | _ => Except.ok Option.none
  | Option.some PyObj.none =>
    if f.allowNone then Except.ok (Option.some PyObj.none)
    else Except.error (LoadError.validationNull fname)
  | Option.some o =>
    match f, o with
    | MField.integer _, PyObj.int n => Except.ok (Option.some (PyObj.int n))
    | _, _ => Except.error (LoadError.validationInvalid fname)

/-- `Schema().load(data)` for a schema synthesized from a class with a
single constructor field `fname`, followed by the `post_load` hook
`clazz(**data)` of `_base_schema` (`_make.py` lines 340-346): the field
is fed its wire slot (the missing sentinel when the key is absent),
missing results are left out of the loaded data, and the constructor then
requires a value for its argument.  The loaded instance is represented by
the keyword mapping the constructor is called with. -/
def loadSingle (fname : String) (f : MField) (data : PyDict PyObj) :
    Except LoadError (PyDict PyObj) :=
  match deserializeSlot fname f (dictLookup data fname) with
  | Except.error e => Except.error e
  | Except.ok Option.none => Except.error (LoadError.typeErrorMissingArgument fname)
  | Except.ok (Option.some o) => Except.ok [(fname, o)]

end LoadModel

section CallBinding

/-- The parameter names of `class_schema` as defined in `_make.py` line
140: the single parameter `clazz`. -/
def class_schema_params : List String := ["clazz"]

/-- The keyword-argument names `desert.schema` and `desert.schema_class`
(`__init__.py` lines 31 and 47) pass on to `_make.class_schema` in the
call `class_schema(cls, meta=meta)`. -/
def schema_forwarded_keywords : List String := ["meta"]

/-- Python call binding: the keywords of a call that match no parameter
of the callee.  A nonempty result means the call raises `TypeError: got
an unexpected keyword argument` before the callee's body runs. -/
def unexpectedKeywords (params kwargs : List String) : List String :=
  kwargs.filter (fun k => !(params.contains k))

end CallBinding

section Fixtures

/-- Concrete oracles for the closed instantiations: hints and values are
numbers, the structural check is equality, the nominal and origin checks
never hold. -/
def natChecks : Checks Nat Nat :=
  ⟨fun h v => h == v, fun _ _ => false, fun _ _ => false⟩

/-- A concrete registry with two entries tagged `a` and `b`. -/
def natRegistry : TypeAndHintFieldRegistry Nat Unit :=
  ⟨[("a", ⟨1, "a", ()⟩), ("b", ⟨2, "b", ()⟩)]⟩

/-- The registry with no registered entries. -/
def emptyRegistry : TypeAndHintFieldRegistry Nat Unit := ⟨[]⟩

/-- The codec `field_for_schema` resolves for a field declared
`x: t.Optional[int]` with no explicit default: an integer field with
`required=False` and `default=missing=None`. -/
def optionalIntField : MField :=
  MField.integer
    [("required", MetaVal.boolV false),
     ("default", MetaVal.pyObj PyObj.none),
     ("missing", MetaVal.pyObj PyObj.none)]

/-- A concrete adjacently tagged wire mapping under the default reserved
keys. -/
def catAdjacent : PyDict PyObj :=
  [("#type", PyObj.str "cat"),
   ("#value", PyObj.dict [("name", PyObj.str "Max"), ("color", PyObj.str "tuxedo")])]

end Fixtures

/-!
## Supporting lemmas

Everything above is the embedding of the source; everything below proves
properties of it.
-/

section RegistryLemmas

variable {Hint Val Fld : Type}

namespace TypeAndHintFieldRegistry

lemma pyMax_eq_none {l : List Nat} (h : pyMax l = Option.none) : l = [] := by
  cases l with
  | nil => rfl
  | cons x xs => simp [pyMax] at h

lemma pyMax_mem {l : List Nat} {m : Nat} (h : pyMax l = Option.some m) : m ∈ l := by
  induction l generalizing m with
  | nil => simp [pyMax] at h
  | cons x xs ih =>
    rw [pyMax] at h
    cases hxs : pyMax xs with
    | none =>
      rw [hxs] at h
      simp only [Option.some.injEq] at h
      subst h
      exact List.mem_cons_self x xs
    | some k =>
      rw [hxs] at h
      simp only [Option.some.injEq] at h
      subst h
      rcases max_choice x k with hm | hm
      · rw [hm]; exact List.mem_cons_self x xs
      · rw [hm]; exact List.mem_cons_of_mem x (ih hxs)

lemma le_pyMax {l : List Nat} {m : Nat} (h : pyMax l = Option.some m) :
    ∀ x ∈ l, x ≤ m := by
  induction l generalizing m with
  | nil => simp [pyMax] at h
  | cons a as ih =>
    intro x hx
    rw [pyMax] at h
    cases has : pyMax as with
    | none =>
      rw [has] at h
      simp only [Option.some.injEq] at h
      subst h
      have : as = [] := pyMax_eq_none has
      subst this
      rcases List.mem_cons.mp hx with rfl | hx'
      · exact le_refl _
      · cases hx'
    | some k =>
      rw [has] at h
      simp only [Option.some.injEq] at h
      subst h
      rcases List.mem_cons.mp hx with rfl | hx'
      · exact le_max_left _ _
      · exact le_trans (ih has x hx') (le_max_right _ _)

lemma pyMax_eq_of_max_mem {α : Type} {l : List α} {f : α → Nat} {e : α}
    (hmem : e ∈ l) (hle : ∀ x ∈ l, f x ≤ f e) :
    pyMax (l.map f) = Option.some (f e) := by
  cases hp : pyMax (l.map f) with
  | none =>
    have : l.map f = [] := pyMax_eq_none hp
    rw [List.map_eq_nil_iff] at this
    subst this
    cases hmem
  | some m =>
    obtain ⟨a, ha, hfa⟩ := List.mem_map.mp (pyMax_mem hp)
    have h1 : f a ≤ f e := hle a ha
    have h2 : f e ≤ m := le_pyMax hp (f e) (List.mem_map_of_mem f hmem)
    rw [← hfa] at h2
    rw [← hfa, le_antisymm h1 h2]

lemma filter_eq_singleton {α : Type} {l : List α} {p : α → Bool} {e : α}
    (hnd : l.Nodup) (hmem : e ∈ l) (hp : p e = true)
    (hothers : ∀ x ∈ l, x ≠ e → p x = false) :
    l.filter p = [e] := by
  induction l with
  | nil => cases hmem
  | cons a as ih =>
    rcases List.mem_cons.mp hmem with rfl | hmem'
    · rw [List.filter_cons_of_pos hp]
      have : as.filter p = [] := by
        rw [List.filter_eq_nil_iff]
        intro x hx
        have hne : x ≠ e := by
          rintro rfl
          exact (List.nodup_cons.mp hnd).1 hx
        simp [hothers x (List.mem_cons_of_mem _ hx) hne]
      rw [this]
    · have hane : a ≠ e := by
        rintro rfl
        exact (List.nodup_cons.mp hnd).1 hmem'
      have ha : p a = false := hothers a (List.mem_cons_self a as) hane
      rw [List.filter_cons_of_neg (by simp [ha])]
      exact ih (List.nodup_cons.mp hnd).2 hmem'
        (fun x hx hne => hothers x (List.mem_cons_of_mem a hx) hne)

lemma entries_nodup {r : TypeAndHintFieldRegistry Hint Fld} (h : r.WF) :
    r.entries.Nodup := by
  have hpairs : r.by_tag.Nodup := List.Nodup.of_map _ h.1
  refine List.Nodup.map_on ?_ hpairs
  intro p hp q hq hpq
  have h1 : p.2.tag = p.1 := h.2 p hp
  have h2 : q.2.tag = q.1 := h.2 q hq
  have hfst : p.1 = q.1 := by rw [← h1, ← h2, hpq]
  exact Prod.ext hfst hpq

/-- The single strictly-top-scoring entry with a positive score is the one
`from_object` returns. -/
lemma from_object_eq_ok {c : Checks Hint Val} {r : TypeAndHintFieldRegistry Hint Fld}
    {v : Val} {e : HintTagField Hint Fld}
    (hwf : r.WF) (hmem : e ∈ r.entries) (hpos : 0 < score c v e)
    (hmax : ∀ x ∈ r.entries, x ≠ e → score c v x < score c v e) :
    from_object c r v = Except.ok e := by
  have hle : ∀ x ∈ r.entries, score c v x ≤ score c v e := by
    intro x hx
    by_cases hxe : x = e
    · subst hxe; exact le_refl _
    · exact le_of_lt (hmax x hx hxe)
  have hfil : r.entries.filter (fun x => score c v x == score c v e) = [e] := by
    refine filter_eq_singleton (entries_nodup hwf) hmem (by simp) ?_
    intro x hx hne
    simp only [beq_eq_false_iff_ne, ne_eq]
    exact Nat.ne_of_lt (hmax x hx hne)
  unfold from_object
  rw [pyMax_eq_of_max_mem hmem hle]
  simp only []
  rw [if_neg (by omega : ¬ score c v e = 0), hfil]

/-- When the registry is nonempty and every entry scores zero,
`from_object` raises `NoMatchingHintFound`, reporting all hints and the
value. -/
lemma from_object_eq_noMatch {c : Checks Hint Val} {r : TypeAndHintFieldRegistry Hint Fld}
    {v : Val} (hne : r.entries ≠ [])
    (hzero : ∀ x ∈ r.entries, score c v x = 0) :
    from_object c r v =
      Except.error (FromObjectError.noMatchingHintFound
        (r.entries.map (fun e => e.hint)) v) := by
  obtain ⟨e, hmem⟩ := List.exists_mem_of_ne_nil _ hne
  have hle : ∀ x ∈ r.entries, score c v x ≤ score c v e := by
    intro x hx
    rw [hzero x hx, hzero e hmem]
  unfold from_object
  rw [pyMax_eq_of_max_mem hmem hle, hzero e hmem]
  simp

/-- When at least two entries tie at the positive high score,
`from_object` raises `MultipleMatchingHintsFound`, reporting the tied
hints and the value. -/
lemma from_object_eq_multiple {c : Checks Hint Val} {r : TypeAndHintFieldRegistry Hint Fld}
    {v : Val} {high : Nat}
    (hmaxeq : pyMax (r.entries.map (fun e => score c v e)) = Option.some high)
    (hpos : 0 < high)
    (hlen : 2 ≤ (r.entries.filter (fun x => score c v x == high)).length) :
    from_object c r v =
      Except.error (FromObjectError.multipleMatchingHintsFound
        ((r.entries.filter (fun x => score c v x == high)).map (fun e => e.hint)) v) := by
  unfold from_object
  rw [hmaxeq]
  simp only []
  rw [if_neg (by omega : ¬ high = 0)]
  cases hfil : r.entries.filter (fun x => score c v x == high) with
  | nil => simp [hfil] at hlen
  | cons a as =>
    cases as with
    | nil => simp [hfil] at hlen
    | cons b bs => rfl

/-- The per-entry score, written as the spec phrases it: the sum of the
+2 and +3 check bonuses plus a +1 bonus that applies only when the sum so
far is positive and the origin check holds. -/
lemma score_formula (c : Checks Hint Val) (v : Val) (x : HintTagField Hint Fld) :
    score c v x =
      (if c.duck x.hint v then 2 else 0) + (if c.nominal x.hint v then 3 else 0)
        + (if 0 < (if c.duck x.hint v then 2 else 0)
                + (if c.nominal x.hint v then 3 else 0)
              ∧ c.originEq x.hint v = true then 1 else 0) := by
  unfold score
  split_ifs <;> simp_all

/-- When the top score is positive and exactly one entry attains it,
`from_object` returns that entry. -/
lemma from_object_eq_ok_of_filter {c : Checks Hint Val}
    {r : TypeAndHintFieldRegistry Hint Fld} {v : Val} {high : Nat}
    {e : HintTagField Hint Fld}
    (hmaxeq : pyMax (r.entries.map (fun x => score c v x)) = Option.some high)
    (hpos : 0 < high)
    (hfil : r.entries.filter (fun x => score c v x == high) = [e]) :
    from_object c r v = Except.ok e := by
  unfold from_object
  rw [hmaxeq]
  simp only []
  rw [if_neg (by omega : ¬ high = 0), hfil]

end TypeAndHintFieldRegistry

end RegistryLemmas

section DictLemmas

variable {α : Type}

lemma dictSet_nil (k : String) (v : α) : dictSet [] k v = [(k, v)] := rfl

lemma dictSet_singleton_ne {k1 k2 : String} (v1 v2 : α) (h : k1 ≠ k2) :
    dictSet [(k1, v1)] k2 v2 = [(k1, v1), (k2, v2)] := by
  have : dictContainsKey [(k1, v1)] k2 = false := by
    simp [dictContainsKey, h]
  rw [dictSet, this]
  simp

/-- Inserting entries whose keys are fresh for the base and mutually
distinct appends them in order. -/
lemma dictExtend_fresh (base : PyDict α) (new : PyDict α)
    (hfresh : ∀ p ∈ new, dictContainsKey base p.1 = false)
    (hnodup : (new.map (fun p => p.1)).Nodup) :
    dictExtend base new = base ++ new := by
  induction new generalizing base with
  | nil => simp [dictExtend]
  | cons q qs ih =>
    have hq : dictContainsKey base q.1 = false := hfresh q (List.mem_cons_self q qs)
    have hset : dictSet base q.1 q.2 = base ++ [q] := by
      rw [dictSet, hq]
      simp
    have hstep : dictExtend base (q :: qs) = dictExtend (base ++ [q]) qs := by
      rw [dictExtend, dictExtend, List.foldl_cons, hset]
    rw [hstep, ih (base ++ [q]) ?_ ?_]
    · simp
    · intro p hp
      have hpb : dictContainsKey base p.1 = false :=
        hfresh p (List.mem_cons_of_mem q hp)
      have hpq : p.1 ≠ q.1 := by
        intro hcontra
        have hqmem : q.1 ∈ qs.map (fun p => p.1) := by
          rw [← hcontra]
          exact List.mem_map_of_mem _ hp
        exact (List.nodup_cons.mp hnodup).1 hqmem
      simp only [dictContainsKey, List.any_append, List.any_cons, List.any_nil,
        Bool.or_eq_false_iff] at hpb ⊢
      refine ⟨hpb, ?_⟩
      simp [Ne.symm hpq]
    · exact (List.nodup_cons.mp hnodup).2

lemma dictLookup_some_contains {d : PyDict α} {k : String} {v : α}
    (h : dictLookup d k = Option.some v) : dictContainsKey d k = true := by
  unfold dictLookup at h
  unfold dictContainsKey
  cases hf : d.find? (fun p => p.1 == k) with
  | none => rw [hf] at h; simp at h
  | some p =>
    have hp := List.find?_some hf
    exact List.any_eq_true.mpr ⟨p, List.mem_of_find?_eq_some hf, hp⟩

lemma dictContainsKey_eq_false {d : PyDict α} {k : String}
    (h : ∀ p ∈ d, p.1 ≠ k) : dictContainsKey d k = false := by
  unfold dictContainsKey
  rw [List.any_eq_false]
  intro p hp
  simp [h p hp]

/-- Unwrapping an adjacently tagged mapping holding exactly the two
distinct reserved keys succeeds and leaves the emptied mapping behind. -/
lemma from_adjacently_tagged_pair {tk vk : String} (tg pv : PyObj) (hne : tk ≠ vk) :
    from_adjacently_tagged [(tk, tg), (vk, pv)] tk vk =
      Except.ok (⟨tg, pv⟩, []) := by
  unfold from_adjacently_tagged dictPop dictLookup
  simp [hne, Ne.symm hne]

end DictLemmas

/-!
## The claims
-/

section Claims

open TypeAndHintFieldRegistry

/-- C1: for every registry and candidate value, `from_object` scores each
registered entry as the sum of +2 when the structural duck-typed check
accepts the value for the entry's hint and +3 when the nominal
instance-of check succeeds, plus a +1 tie-breaking bonus — applied only
when the score so far is positive — when the value's runtime type equals
the hint's generic origin; and when exactly one entry attains the maximum
positive score, `from_object` returns that entry. -/
theorem c1_from_object_scoring_and_unique_winner
    {Hint Val Fld : Type} (c : Checks Hint Val)
    (r : TypeAndHintFieldRegistry Hint Fld) (v : Val) (e : HintTagField Hint Fld)
    (hwf : r.WF) (hmem : e ∈ r.entries) (hpos : 0 < score c v e)
    (hmax : ∀ x ∈ r.entries, x ≠ e → score c v x < score c v e) :
    (∀ x ∈ r.entries, score c v x =
        (if c.duck x.hint v then 2 else 0) + (if c.nominal x.hint v then 3 else 0)
          + (if 0 < (if c.duck x.hint v then 2 else 0)
                  + (if c.nominal x.hint v then 3 else 0)
                ∧ c.originEq x.hint v = true then 1 else 0))
    ∧ from_object c r v = Except.ok e :=
  ⟨fun x _ => score_formula c v x, from_object_eq_ok hwf hmem hpos hmax⟩

/-- C1 witness: in a two-entry registry the value 1 matches exactly the
entry with hint 1 (structurally, score 2), so `from_object` returns it. -/
theorem c1_witness :
    from_object natChecks natRegistry 1 = Except.ok ⟨1, "a", ()⟩ :=
  (c1_from_object_scoring_and_unique_winner natChecks natRegistry 1 ⟨1, "a", ()⟩
    (by decide) (by decide) (by decide) (by decide)).2

/-- C2 counterexample: on the registry with no registered entries,
`from_object` reaches `max(scores.values())` with an empty sequence and
raises the built-in `ValueError`, not the no-matching-hint error the
claim requires for a value no entry matches. -/
theorem c2_counterexample_empty_registry :
    from_object natChecks emptyRegistry 0 =
      Except.error FromObjectError.valueErrorFromEmptyMax
    ∧ from_object natChecks emptyRegistry 0 ≠
      Except.error (FromObjectError.noMatchingHintFound [] (0 : Nat)) :=
  ⟨rfl, by decide⟩

/-- C2 (amended): on every registry with at least one registered entry,
`from_object` either returns exactly one entry or fails explicitly: when
no entry scores above 0 it raises the no-matching-hint error reporting
all considered hints and the offending value; when two or more entries
tie at the maximum positive score it raises the multiple-matching-hints
error reporting the tied hints and the value; and when exactly one entry
attains the maximum positive score it returns that entry, never picking
silently among ties.  (On the registry with no entries the code instead
raises the built-in `ValueError` from `max` of an empty sequence.) -/
theorem c2_from_object_returns_one_or_fails_explicitly
    {Hint Val Fld : Type} (c : Checks Hint Val)
    (r : TypeAndHintFieldRegistry Hint Fld) (v : Val)
    (hne : r.entries ≠ []) :
    ((∀ x ∈ r.entries, score c v x = 0) →
      from_object c r v =
        Except.error (FromObjectError.noMatchingHintFound
          (r.entries.map (fun x => x.hint)) v))
    ∧ (∀ high, pyMax (r.entries.map (fun x => score c v x)) = Option.some high →
        0 < high →
        2 ≤ (r.entries.filter (fun x => score c v x == high)).length →
        from_object c r v =
          Except.error (FromObjectError.multipleMatchingHintsFound
            ((r.entries.filter (fun x => score c v x == high)).map
              (fun x => x.hint)) v))
    ∧ (∀ high e, pyMax (r.entries.map (fun x => score c v x)) = Option.some high →
        0 < high →
        r.entries.filter (fun x => score c v x == high) = [e] →
        from_object c r v = Except.ok e) :=
  ⟨fun hzero => from_object_eq_noMatch hne hzero,
   fun _ hmax hpos hlen => from_object_eq_multiple hmax hpos hlen,
   fun _ _ hmax hpos hfil => from_object_eq_ok_of_filter hmax hpos hfil⟩

/-- C2 witness: the value 5 matches no entry of the two-entry registry,
and the no-matching-hint error reports both hints and the value. -/
theorem c2_witness :
    from_object natChecks natRegistry 5 =
      Except.error (FromObjectError.noMatchingHintFound [1, 2] (5 : Nat)) :=
  (c2_from_object_returns_one_or_fails_explicitly natChecks natRegistry 5
    (by decide)).1 (by decide)

/-- C3: re-registering an already registered tag fails with the
duplicate-tag error, and the failed registration does not mutate the
registry: the registry afterwards is the one before, and `from_tag` still
returns the originally registered entry. -/
theorem c3_register_rejects_duplicate_tag_without_mutation
    {Hint Fld : Type} (r : TypeAndHintFieldRegistry Hint Fld) (hint2 : Hint)
    (tag : String) (field2 : Fld) (e : HintTagField Hint Fld)
    (hreg : r.from_tag tag = Except.ok e) :
    (r.register hint2 tag field2).2 =
      Option.some (RegisterError.tagAlreadyRegistered tag)
    ∧ (r.register hint2 tag field2).1 = r
    ∧ (r.register hint2 tag field2).1.from_tag tag = Except.ok e := by
  have hlook : dictLookup r.by_tag tag = Option.some e := by
    unfold from_tag at hreg
    cases hl : dictLookup r.by_tag tag with
    | none => rw [hl] at hreg; cases hreg
    | some x =>
      rw [hl] at hreg
      cases hreg
      rfl
  have hcon := dictLookup_some_contains hlook
  unfold register
  rw [hcon]
  exact ⟨rfl, rfl, hreg⟩

/-- C3 witness: re-registering tag `a` of the two-entry registry with a
different hint fails and leaves the original entry reachable. -/
theorem c3_witness :
    (natRegistry.register 9 "a" ()).2 =
      Option.some (RegisterError.tagAlreadyRegistered "a")
    ∧ (natRegistry.register 9 "a" ()).1 = natRegistry
    ∧ (natRegistry.register 9 "a" ()).1.from_tag "a" = Except.ok ⟨1, "a", ()⟩ :=
  c3_register_rejects_duplicate_tag_without_mutation natRegistry 9 "a" () ⟨1, "a", ()⟩
    (by decide)

/-- C4: the `class_schema` in the `_make.py` under `src/` accepts only
the parameter `clazz` (line 140) and builds no Meta-configuration block,
while `desert.schema` and `desert.schema_class` (`__init__.py` lines 31
and 47) forward the caller's meta as `class_schema(cls, meta=meta)`;
Python call binding therefore rejects the `meta` keyword with a
`TypeError` on every such call, contradicting the claim (and the
repository's own `test_ignore_unknown_fields` test and the wrappers'
docstrings). -/
theorem c4_meta_keyword_not_accepted :
    unexpectedKeywords class_schema_params schema_forwarded_keywords = ["meta"] :=
  rfl

/-- C5: with the `_make.py` under `src/`, resolving the declaration
`Tuple[int, ...]` fails outright instead of producing a
tuple-on-load/list-on-dump codec: the tuple branch resolves every type
argument including the `Ellipsis` marker, and `field_for_schema` on
`Ellipsis` falls through to the nested-class fallback, whose
`class_schema(Ellipsis)` raises `NotAnAttrsClassOrDataclass` — so schema
construction raises and `{"x": [1,2,3]}` is never loaded, contradicting
the claim (and the repository's own `test_tuple_ellipsis` test). -/
theorem c5_variadic_tuple_resolution_raises :
    field_for_schema (PyType.tupleOf [PyType.int, PyType.ellipsis]) MetaVal.missing
        (Option.some []) =
      Except.error (MakeError.notAnAttrsClassOrDataclass PyType.ellipsis) :=
  rfl

/-- C6: for a field `x: Optional[int]` with no explicit default, the
resolved codec is an integer field with `required=False` and `None` as
both the dump-time default (`default`) and the load-time default
(`missing`); loading `{}` therefore yields `x = None`, and loading
`{"x": None}` yields the same result. -/
theorem c6_optional_int_defaults_and_loads :
    field_for_schema (PyType.unionOf [PyType.int, PyType.noneType])
        MetaVal.missing (Option.some []) = Except.ok optionalIntField
    ∧ optionalIntField.isRequired = false
    ∧ optionalIntField.dumpDefault = MetaVal.pyObj PyObj.none
    ∧ optionalIntField.loadDefault = MetaVal.pyObj PyObj.none
    ∧ loadSingle "x" optionalIntField [] = Except.ok [("x", PyObj.none)]
    ∧ loadSingle "x" optionalIntField [("x", PyObj.none)] =
        Except.ok [("x", PyObj.none)] :=
  ⟨rfl, rfl, rfl, rfl, rfl, rfl⟩

/-- C7: with the `_make.py` under `src/`, an unparameterized `list` or
`dict` declaration falls through to the nested-class fallback and is
rejected with the very same `NotAnAttrsClassOrDataclass` error that an
argument that is neither an attrs class nor a dataclass receives — not
with the distinct `UnknownType` error, which `exceptions.py` defines but
nothing raises — contradicting the claim (and the repository's own
`test_raise_unknown_type` test). -/
theorem c7_bare_containers_not_distinguished :
    field_for_schema PyType.bareList MetaVal.missing (Option.some []) =
      Except.error (MakeError.notAnAttrsClassOrDataclass PyType.bareList)
    ∧ field_for_schema PyType.bareDict MetaVal.missing (Option.some []) =
      Except.error (MakeError.notAnAttrsClassOrDataclass PyType.bareDict)
    ∧ field_for_schema (PyType.plainClass "C") MetaVal.missing (Option.some []) =
      Except.error (MakeError.notAnAttrsClassOrDataclass (PyType.plainClass "C")) :=
  ⟨rfl, rfl, rfl⟩

/-- C8: each shipped tag-placement convention unwraps what it wrapped:
externally tagged unconditionally; adjacently tagged whenever the type
key and the value key differ; internally tagged whenever the payload is
a string-keyed mapping (unique keys) that does not contain the type key.
The tag is recovered as the string object the wrapper embedded. -/
theorem c8_tag_conventions_round_trip (tag : String) (v : PyObj)
    (payload : PyDict PyObj) (tk vk : String) :
    from_externally_tagged (to_externally_tagged tag v) =
      Except.ok ⟨PyObj.str tag, v⟩
    ∧ (tk ≠ vk →
        from_adjacently_tagged (to_adjacently_tagged tag v tk vk) tk vk =
          Except.ok (⟨PyObj.str tag, v⟩, []))
    ∧ ((payload.map (fun p => p.1)).Nodup →
        (∀ p ∈ payload, p.1 ≠ tk) →
        (to_internally_tagged tag payload tk).bind
            (fun item => from_internally_tagged item tk) =
          Except.ok ⟨PyObj.str tag, PyObj.dict payload⟩) := by
  refine ⟨rfl, ?_, ?_⟩
  · intro hne
    have hto : to_adjacently_tagged tag v tk vk = [(tk, PyObj.str tag), (vk, v)] := by
      unfold to_adjacently_tagged
      rw [dictSet_nil, dictSet_singleton_ne _ _ hne]
    rw [hto]
    exact from_adjacently_tagged_pair _ _ hne
  · intro hnd htk
    have hcon : dictContainsKey payload tk = false := dictContainsKey_eq_false htk
    have hext : dictExtend [(tk, PyObj.str tag)] payload =
        (tk, PyObj.str tag) :: payload := by
      rw [dictExtend_fresh _ _ ?_ hnd]
      · rfl
      · intro p hp
        simp [dictContainsKey, Ne.symm (htk p hp)]
    have hfilter : ((tk, PyObj.str tag) :: payload).filter (fun p => p.1 != tk) =
        payload := by
      rw [List.filter_cons_of_neg (by simp)]
      rw [List.filter_eq_self]
      intro p hp
      simp [htk p hp]
    unfold to_internally_tagged
    rw [hcon]
    show (Except.ok (dictExtend [(tk, PyObj.str tag)] payload)).bind
        (fun item => from_internally_tagged item tk) = _
    rw [hext]
    show from_internally_tagged ((tk, PyObj.str tag) :: payload) tk = _
    unfold from_internally_tagged
    have hlook : dictLookup ((tk, PyObj.str tag) :: payload) tk =
        Option.some (PyObj.str tag) := by
      unfold dictLookup
      simp
    rw [hlook]
    show (Except.ok (TaggedValue.mk (PyObj.str tag)
        (PyObj.dict (((tk, PyObj.str tag) :: payload).filter (fun p => p.1 != tk)))) :
        Except TagError TaggedValue) = _
    rw [hfilter]

/-- C8 witness: a concrete round trip through all three conventions with
tag `cat` and the default reserved keys. -/
theorem c8_witness :
    from_externally_tagged (to_externally_tagged "cat" (PyObj.int 7)) =
      Except.ok ⟨PyObj.str "cat", PyObj.int 7⟩
    ∧ from_adjacently_tagged
        (to_adjacently_tagged "cat" (PyObj.int 7) "#type" "#value")
        "#type" "#value" =
        Except.ok (⟨PyObj.str "cat", PyObj.int 7⟩, [])
    ∧ (to_internally_tagged "cat" [("name", PyObj.str "Max")] "#type").bind
        (fun item => from_internally_tagged item "#type") =
        Except.ok ⟨PyObj.str "cat", PyObj.dict [("name", PyObj.str "Max")]⟩ := by
  obtain ⟨h1, h2, h3⟩ := c8_tag_conventions_round_trip "cat" (PyObj.int 7)
    [("name", PyObj.str "Max")] "#type" "#value"
  exact ⟨h1, h2 (by decide), h3 (by decide) (by decide)⟩

/-- C9 counterexample: `from_adjacently_tagged` pops both reserved keys
out of the mapping it is given, so the call does not leave its input
unchanged: afterwards the mapping is empty rather than equal to what was
passed in, and unwrapping it a second time raises `KeyError` instead of
yielding the same result. -/
theorem c9_counterexample_mutating_unwrap :
    from_adjacently_tagged catAdjacent "#type" "#value" =
      Except.ok
        (⟨PyObj.str "cat",
          PyObj.dict [("name", PyObj.str "Max"), ("color", PyObj.str "tuxedo")]⟩,
         [])
    ∧ ([] : PyDict PyObj) ≠ catAdjacent
    ∧ from_adjacently_tagged ([] : PyDict PyObj) "#type" "#value" =
        Except.error (TagError.keyError "#type") :=
  ⟨rfl, by simp [catAdjacent], rfl⟩

/-- C9 (amended): unwrapping an adjacently tagged mapping returns the
right `TaggedValue` but mutates the mapping it was given, removing the
type and value keys (the state after a successful unwrap of a two-key
mapping is the empty mapping); unwrapping that same mutated mapping again
therefore raises `KeyError` for the type key rather than yielding the
same result. -/
theorem c9_adjacent_unwrap_mutates_input (tk vk : String) (tg pv : PyObj)
    (hne : tk ≠ vk) :
    from_adjacently_tagged [(tk, tg), (vk, pv)] tk vk = Except.ok (⟨tg, pv⟩, [])
    ∧ from_adjacently_tagged ([] : PyDict PyObj) tk vk =
        Except.error (TagError.keyError tk) :=
  ⟨from_adjacently_tagged_pair _ _ hne, rfl⟩

/-- C9 witness: the default reserved keys with a small payload. -/
theorem c9_witness :
    from_adjacently_tagged [("#type", PyObj.str "cat"), ("#value", PyObj.int 1)]
        "#type" "#value" = Except.ok (⟨PyObj.str "cat", PyObj.int 1⟩, [])
    ∧ from_adjacently_tagged ([] : PyDict PyObj) "#type" "#value" =
        Except.error (TagError.keyError "#type") :=
  c9_adjacent_unwrap_mutates_input "#type" "#value" (PyObj.str "cat") (PyObj.int 1)
    (by decide)

/-- C10: `field_for_schema` depends on its metadata argument only through
the `"desert"` entry: metadata mappings with equal `"desert"` entries
resolve to identical codecs, and a mapping without a `"desert"` key
behaves exactly like the empty mapping. -/
theorem c10_metadata_desert_key_only (typ : PyType) (default : MetaVal)
    (m1 m2 m3 : Meta)
    (h12 : dictLookup m1 "desert" = dictLookup m2 "desert")
    (h3 : dictLookup m3 "desert" = Option.none) :
    field_for_schema typ default (Option.some m1) =
      field_for_schema typ default (Option.some m2)
    ∧ field_for_schema typ default (Option.some m3) =
      field_for_schema typ default (Option.some []) := by
  have hex12 : extractDesert (Option.some m1) = extractDesert (Option.some m2) :=
    congrArg desertEntryToMeta h12
  have hex3 : extractDesert (Option.some m3) = extractDesert (Option.some []) :=
    congrArg desertEntryToMeta (h3.trans rfl)
  constructor
  · conv_lhs => rw [field_for_schema.eq_def]
    conv_rhs => rw [field_for_schema.eq_def]
    rw [hex12]
  · conv_lhs => rw [field_for_schema.eq_def]
    conv_rhs => rw [field_for_schema.eq_def]
    rw [hex3]

/-- C10 witness: a metadata mapping with an extra non-desert key resolves
like one with only the `"desert"` entry, and a mapping with no `"desert"`
key resolves like the empty mapping. -/
theorem c10_witness :
    field_for_schema PyType.int MetaVal.missing
        (Option.some [("desert", MetaVal.mmap []), ("other", MetaVal.boolV true)]) =
      field_for_schema PyType.int MetaVal.missing
        (Option.some [("desert", MetaVal.mmap [])])
    ∧ field_for_schema PyType.int MetaVal.missing
        (Option.some [("something", MetaVal.boolV true)]) =
      field_for_schema PyType.int MetaVal.missing (Option.some []) :=
  c10_metadata_desert_key_only PyType.int MetaVal.missing
    [("desert", MetaVal.mmap []), ("other", MetaVal.boolV true)]
    [("desert", MetaVal.mmap [])]
    [("something", MetaVal.boolV true)] rfl rfl

end Claims

end Desert
